import Mathlib

/-!
Shallow embedding of the SnipeIT Ansible module demo
(`plugins/module_utils/snipeit.py`, `plugins/modules/snipeit_category.py`,
`plugins/modules/snipeit_model.py`, `plugins/modules/snipeit_entry.py`).

Python functions become Lean functions.  The remote SnipeIT service is
modelled as an explicit state (`Server`); every HTTP call an operation
issues is recorded in a trace of `Request`s.  `module.fail_json` becomes
the `Outcome.failJson` constructor, an uncaught Python exception
(KeyError / TypeError / IndexError) becomes `Outcome.pyError`, and normal
return becomes `Outcome.ok`.
-/

set_option linter.unusedVariables false

/-- HTTP method of a request issued through the Python `requests` library. -/
inductive Method where
  | GET
  | POST
  | PATCH
  | DELETE
  deriving DecidableEq

/-- One HTTP request as issued by the modules: a method and a full URL.
The modules build every URL as an f-string over `snipe_url.rstrip('/')`. -/
structure Request where
  method : Method
  url : String
  deriving DecidableEq

/-- Result of running a piece of module code: normal return, abort via
`module.fail_json`, or an uncaught Python exception. -/
inductive Outcome (α : Type) where
  | ok (a : α)
  | failJson (msg : String)
  | pyError (msg : String)
  deriving DecidableEq

/-- Bool test: did the outcome abort through `module.fail_json`? -/
def Outcome.isFailJson {α : Type} : Outcome α → Bool
  | .failJson _ => true
  | _ => false

/-- A SnipeIT category record (natural key: name + category_type). -/
structure Category where
  id : Nat
  name : String
  category_type : String
  deriving DecidableEq

/-- A SnipeIT asset model record (natural key: name). -/
structure Model where
  id : Nat
  name : String
  category_id : Nat
  manufacturer_id : Option Int
  deriving DecidableEq

/-- A SnipeIT hardware entry record (natural key: asset_tag).
`status_id` models the id under `status_label` in API responses and
`model_id` the id under `model`. -/
structure Entry where
  id : Nat
  asset_tag : String
  status_id : Nat
  model_id : Nat
  deriving DecidableEq

/-- State of the remote SnipeIT service: the stored records, the next free
id, and a fault-injection switch: when `mutError = some m`, every mutating
request (POST/PATCH/DELETE) is answered with the error envelope
`{status: "error", messages: m}` and leaves the records unchanged. -/
structure Server where
  categories : List Category
  models : List Model
  entries : List Entry
  nextId : Nat
  mutError : Option String
  deriving DecidableEq

/-- Result of one operation: its outcome, the server state afterwards, and
the HTTP requests it issued, in order. -/
structure OpResult (α : Type) where
  result : Outcome α
  server : Server
  trace : List Request
  deriving DecidableEq

/-- Python `snipe_url.rstrip('/')`: drop all trailing `/` characters. -/
def rstripSlash (s : String) : String :=
  String.mk ((s.data.reverse.dropWhile (fun c => c = '/')).reverse)

/-- URL construction shared by every request in the sources:
`f"{snipe_url.rstrip('/')}<path>"`. -/
def apiUrl (snipe_url path : String) : String :=
  rstripSlash snipe_url ++ path

/-- Body of a response from the list endpoints `/api/v1/categories` and
`/api/v1/models`: either a `{total, rows}` list envelope or a
`{status, messages}` error envelope (which carries no `total` key). -/
inductive ListResp (ρ : Type) where
  | listing (total : Nat) (rows : List ρ)
  | errEnvelope (status : String) (messages : String)
  deriving DecidableEq

/-- Body of a response from `/api/v1/hardware/bytag/{tag}`: either a
hardware object (a dict containing an `asset_tag` key) or a
`{status, messages}` error envelope. -/
inductive HardwareResp where
  | asset (e : Entry)
  | envelope (status : String) (messages : String)
  deriving DecidableEq

/-- Body of a response to a mutating request: a `{status, messages}`
envelope (`status = "success"` on success). -/
structure MutResp where
  status : String
  messages : String
  deriving DecidableEq

/-- Response handling of `get_category` (module_utils/snipeit.py): read
`data["total"]` (a KeyError on an error envelope, which has no such key),
return None when 0, else `data["rows"][0]`. -/
def get_category_parse (data : ListResp Category) : Outcome (Option Category) :=
  match data with
  | .listing total rows =>
      if total = 0 then .ok none
      else
        match rows with
        | [] => .pyError "IndexError: list index out of range"
        | r :: _ => .ok (some r)
  | .errEnvelope _ _ => .pyError "KeyError: total"

/-- Response handling of `get_model` (module_utils/snipeit.py), identical
in shape to `get_category_parse`. -/
def get_model_parse (data : ListResp Model) : Outcome (Option Model) :=
  match data with
  | .listing total rows =>
      if total = 0 then .ok none
      else
        match rows with
        | [] => .pyError "IndexError: list index out of range"
        | r :: _ => .ok (some r)
  | .errEnvelope _ _ => .pyError "KeyError: total"

/-- Response handling of `get_entry` (module_utils/snipeit.py): a body with
an `asset_tag` key is the entry; the error envelope
`messages = "Asset does not exist."` means absence and yields None; any
other error envelope is fatal via `fail_json`; anything else is the
catch-all `fail_json("Unknown response from SnipeIT")`. -/
def get_entry_parse (data : HardwareResp) : Outcome (Option Entry) :=
  match data with
  | .asset e => .ok (some e)
  | .envelope status messages =>
      if status = "error" ∧ messages = "Asset does not exist." then .ok none
      else if status = "error" then
        .failJson ("Error retrieving entry: " ++ messages)
      else .failJson "Unknown response from SnipeIT"

/-- Service model: GET `/api/v1/categories?name=..&category_type=..`
answers with the matching rows in a `{total, rows}` envelope. -/
def serverGetCategories (s : Server) (name category_type : String) :
    ListResp Category :=
  .listing
    (s.categories.filter
      (fun c => decide (c.name = name ∧ c.category_type = category_type))).length
    (s.categories.filter
      (fun c => decide (c.name = name ∧ c.category_type = category_type)))

/-- Service model: GET `/api/v1/models?name=..` answers with the matching
rows in a `{total, rows}` envelope. -/
def serverGetModels (s : Server) (name : String) : ListResp Model :=
  .listing (s.models.filter (fun m => decide (m.name = name))).length
    (s.models.filter (fun m => decide (m.name = name)))

/-- Service model: GET `/api/v1/hardware/bytag/{tag}` answers with the
stored entry, or with the error envelope `Asset does not exist.`. -/
def serverGetEntry (s : Server) (asset_tag : String) : HardwareResp :=
  match s.entries.find? (fun e => decide (e.asset_tag = asset_tag)) with
  | some e => .asset e
  | none => .envelope "error" "Asset does not exist."

/-- Service model: POST `/api/v1/categories` stores a new category under
the next free id (or answers the injected mutation error). -/
def serverPostCategory (s : Server) (name category_type : String) :
    MutResp × Server :=
  match s.mutError with
  | some m => (⟨"error", m⟩, s)
  | none =>
      (⟨"success", ""⟩,
       { s with categories := ⟨s.nextId, name, category_type⟩ :: s.categories,
                nextId := s.nextId + 1 })

/-- Service model: POST `/api/v1/models` stores a new model under the next
free id (or answers the injected mutation error). -/
def serverPostModel (s : Server) (name : String) (category_id : Nat)
    (manufacturer_id : Option Int) : MutResp × Server :=
  match s.mutError with
  | some m => (⟨"error", m⟩, s)
  | none =>
      (⟨"success", ""⟩,
       { s with models := ⟨s.nextId, name, category_id, manufacturer_id⟩ :: s.models,
                nextId := s.nextId + 1 })

/-- Service model: POST `/api/v1/hardware` stores a new entry under the
next free id (or answers the injected mutation error). -/
def serverPostEntry (s : Server) (asset_tag : String) (status_id model_id : Nat) :
    MutResp × Server :=
  match s.mutError with
  | some m => (⟨"error", m⟩, s)
  | none =>
      (⟨"success", ""⟩,
       { s with entries := ⟨s.nextId, asset_tag, status_id, model_id⟩ :: s.entries,
                nextId := s.nextId + 1 })

/-- Service model: DELETE `/api/v1/hardware/{id}` removes the entry with
that id (or answers the injected mutation error). -/
def serverDeleteEntry (s : Server) (id : Nat) : MutResp × Server :=
  match s.mutError with
  | some m => (⟨"error", m⟩, s)
  | none =>
      (⟨"success", ""⟩,
       { s with entries := s.entries.filter (fun e => decide (¬ e.id = id)) })

/-- Service model: PATCH `/api/v1/hardware/{id}` with a `model_id` payload
updates that field of the entry (or answers the injected mutation error). -/
def serverPatchEntryModel (s : Server) (id model_id : Nat) : MutResp × Server :=
  match s.mutError with
  | some m => (⟨"error", m⟩, s)
  | none =>
      (⟨"success", ""⟩,
       { s with entries :=
          s.entries.map fun e =>
            if e.id = id then { e with model_id := model_id } else e })

/-- Service model: PATCH `/api/v1/hardware/{id}` with a `status_id` payload
updates that field of the entry (or answers the injected mutation error). -/
def serverPatchEntryStatus (s : Server) (id status_id : Nat) : MutResp × Server :=
  match s.mutError with
  | some m => (⟨"error", m⟩, s)
  | none =>
      (⟨"success", ""⟩,
       { s with entries :=
          s.entries.map fun e =>
            if e.id = id then { e with status_id := status_id } else e })

/-- Embedding of `get_category` (module_utils/snipeit.py): one GET against
`/api/v1/categories`, response handled by `get_category_parse`. -/
def get_category (s : Server) (snipe_url api_key name category_type : String) :
    Outcome (Option Category) × List Request :=
  (get_category_parse (serverGetCategories s name category_type),
   [⟨.GET, apiUrl snipe_url "/api/v1/categories"⟩])

/-- Embedding of `get_model` (module_utils/snipeit.py): one GET against
`/api/v1/models`, response handled by `get_model_parse`. -/
def get_model (s : Server) (snipe_url api_key name : String) :
    Outcome (Option Model) × List Request :=
  (get_model_parse (serverGetModels s name),
   [⟨.GET, apiUrl snipe_url "/api/v1/models"⟩])

/-- Embedding of `get_entry` (module_utils/snipeit.py): one GET against
`/api/v1/hardware/bytag/{asset_tag}`, response handled by
`get_entry_parse`. -/
def get_entry (s : Server) (snipe_url api_key asset_tag : String) :
    Outcome (Option Entry) × List Request :=
  (get_entry_parse (serverGetEntry s asset_tag),
   [⟨.GET, apiUrl snipe_url ("/api/v1/hardware/bytag/" ++ asset_tag)⟩])

/-- Python truthiness of the optional integer argument `manufacturer_id`:
`None` and `0` are falsy, any other integer is truthy. -/
def truthyInt (n : Option Int) : Bool :=
  match n with
  | none => false
  | some v => decide (¬ v = 0)

/-- Python truthiness of the optional string parameter `model_name`:
`None` and the empty string are falsy. -/
def truthyStr (o : Option String) : Bool :=
  match o with
  | none => false
  | some v => decide (¬ v = "")

/-- Value stored in a JSON request payload. -/
inductive PValue where
  | str (s : String)
  | int (n : Int)
  | nat (n : Nat)
  deriving DecidableEq

/-- Payload built by `create_model` (snipeit_model.py lines 98-103):
`{"name": .., "category_id": ..}`, plus a `manufacturer_id` key added only
when `manufacturer_id` is truthy. -/
def model_post_payload (name : String) (category_id : Nat)
    (manufacturer_id : Option Int) : List (String × PValue) :=
  let payload := [("name", PValue.str name), ("category_id", PValue.nat category_id)]
  if truthyInt manufacturer_id then
    payload ++ [("manufacturer_id", PValue.int (manufacturer_id.getD 0))]
  else payload

/-- Embedding of `create_category` (snipeit_category.py): look the category
up; found means return False; absent in dry-run means return True; else
POST `/api/v1/categories` and fail_json on an error envelope. -/
def create_category (s : Server) (snipe_url api_key name category_type : String)
    (dry_run : Bool) : OpResult Bool :=
  let getReq : Request := ⟨.GET, apiUrl snipe_url "/api/v1/categories"⟩
  match get_category_parse (serverGetCategories s name category_type) with
  | .failJson m => ⟨.failJson m, s, [getReq]⟩
  | .pyError m => ⟨.pyError m, s, [getReq]⟩
  | .ok (some _) => ⟨.ok false, s, [getReq]⟩
  | .ok none =>
      if dry_run then ⟨.ok true, s, [getReq]⟩
      else
        let postReq : Request := ⟨.POST, apiUrl snipe_url "/api/v1/categories"⟩
        let (data, s1) := serverPostCategory s name category_type
        if data.status = "error" then
          ⟨.failJson ("Error creating category: " ++ data.messages), s1,
           [getReq, postReq]⟩
        else ⟨.ok true, s1, [getReq, postReq]⟩

/-- Embedding of `create_model` (snipeit_model.py): look the model up by
name; found means return False; absent in dry-run means return True; else
POST `/api/v1/models` with `model_post_payload` (so `manufacturer_id` is
sent only when truthy) and fail_json on an error envelope. -/
def create_model (s : Server) (snipe_url api_key name : String)
    (category_id : Nat) (dry_run : Bool) (manufacturer_id : Option Int) :
    OpResult Bool :=
  let getReq : Request := ⟨.GET, apiUrl snipe_url "/api/v1/models"⟩
  match get_model_parse (serverGetModels s name) with
  | .failJson m => ⟨.failJson m, s, [getReq]⟩
  | .pyError m => ⟨.pyError m, s, [getReq]⟩
  | .ok (some _) => ⟨.ok false, s, [getReq]⟩
  | .ok none =>
      if dry_run then ⟨.ok true, s, [getReq]⟩
      else
        let postReq : Request := ⟨.POST, apiUrl snipe_url "/api/v1/models"⟩
        let (data, s1) := serverPostModel s name category_id
          (if truthyInt manufacturer_id then manufacturer_id else none)
        if data.status = "error" then
          ⟨.failJson ("Error creating model: " ++ data.messages), s1,
           [getReq, postReq]⟩
        else ⟨.ok true, s1, [getReq, postReq]⟩

/-- Embedding of `create_entry` (snipeit_entry.py): look the entry up by
asset tag; found means return False; absent in dry-run means return True;
else POST `/api/v1/hardware` and fail_json on an error envelope. -/
def create_entry (s : Server) (snipe_url api_key asset_tag : String)
    (status_id model_id : Nat) (dry_run : Bool) : OpResult Bool :=
  let getReq : Request :=
    ⟨.GET, apiUrl snipe_url ("/api/v1/hardware/bytag/" ++ asset_tag)⟩
  match get_entry_parse (serverGetEntry s asset_tag) with
  | .failJson m => ⟨.failJson m, s, [getReq]⟩
  | .pyError m => ⟨.pyError m, s, [getReq]⟩
  | .ok (some _) => ⟨.ok false, s, [getReq]⟩
  | .ok none =>
      if dry_run then ⟨.ok true, s, [getReq]⟩
      else
        let postReq : Request := ⟨.POST, apiUrl snipe_url "/api/v1/hardware"⟩
        let (data, s1) := serverPostEntry s asset_tag status_id model_id
        if data.status = "error" then
          ⟨.failJson ("Error creating entry: " ++ data.messages), s1,
           [getReq, postReq]⟩
        else ⟨.ok true, s1, [getReq, postReq]⟩

/-- Embedding of `delete_entry` (snipeit_entry.py): look the entry up by
asset tag; absent means return False; found in dry-run means return True;
else DELETE `/api/v1/hardware/{entry['id']}` and fail_json on an error
envelope. -/
def delete_entry (s : Server) (snipe_url api_key asset_tag : String)
    (dry_run : Bool) : OpResult Bool :=
  let getReq : Request :=
    ⟨.GET, apiUrl snipe_url ("/api/v1/hardware/bytag/" ++ asset_tag)⟩
  match get_entry_parse (serverGetEntry s asset_tag) with
  | .failJson m => ⟨.failJson m, s, [getReq]⟩
  | .pyError m => ⟨.pyError m, s, [getReq]⟩
  | .ok none => ⟨.ok false, s, [getReq]⟩
  | .ok (some entry) =>
      if dry_run then ⟨.ok true, s, [getReq]⟩
      else
        let delReq : Request :=
          ⟨.DELETE, apiUrl snipe_url ("/api/v1/hardware/" ++ Nat.repr entry.id)⟩
        let (data, s1) := serverDeleteEntry s entry.id
        if data.status = "error" then
          ⟨.failJson ("Error deleting entry: " ++ data.messages), s1,
           [getReq, delReq]⟩
        else ⟨.ok true, s1, [getReq, delReq]⟩

/-- Embedding of `update_entry_model` (snipeit_entry.py): look the entry up
by asset tag, then read `entry["model"]["id"]` - a TypeError when the
lookup returned None; equal ids mean return False; different ids in
dry-run mean return True; else PATCH `/api/v1/hardware/{entry['id']}` and
fail_json on an error envelope. -/
def update_entry_model (s : Server) (snipe_url api_key asset_tag : String)
    (model_id : Nat) (dry_run : Bool) : OpResult Bool :=
  let getReq : Request :=
    ⟨.GET, apiUrl snipe_url ("/api/v1/hardware/bytag/" ++ asset_tag)⟩
  match get_entry_parse (serverGetEntry s asset_tag) with
  | .failJson m => ⟨.failJson m, s, [getReq]⟩
  | .pyError m => ⟨.pyError m, s, [getReq]⟩
  | .ok none =>
      ⟨.pyError "TypeError: NoneType object is not subscriptable", s, [getReq]⟩
  | .ok (some entry) =>
      if entry.model_id = model_id then ⟨.ok false, s, [getReq]⟩
      else if dry_run then ⟨.ok true, s, [getReq]⟩
      else
        let patchReq : Request :=
          ⟨.PATCH, apiUrl snipe_url ("/api/v1/hardware/" ++ Nat.repr entry.id)⟩
        let (data, s1) := serverPatchEntryModel s entry.id model_id
        if data.status = "error" then
          ⟨.failJson ("Error updating entry: " ++ data.messages), s1,
           [getReq, patchReq]⟩
        else ⟨.ok true, s1, [getReq, patchReq]⟩

/-- Embedding of `update_entry_status_label` (snipeit_entry.py): same shape
as `update_entry_model` with `entry["status_label"]["id"]` and a
`status_id` payload. -/
def update_entry_status_label (s : Server) (snipe_url api_key asset_tag : String)
    (status_id : Nat) (dry_run : Bool) : OpResult Bool :=
  let getReq : Request :=
    ⟨.GET, apiUrl snipe_url ("/api/v1/hardware/bytag/" ++ asset_tag)⟩
  match get_entry_parse (serverGetEntry s asset_tag) with
  | .failJson m => ⟨.failJson m, s, [getReq]⟩
  | .pyError m => ⟨.pyError m, s, [getReq]⟩
  | .ok none =>
      ⟨.pyError "TypeError: NoneType object is not subscriptable", s, [getReq]⟩
  | .ok (some entry) =>
      if entry.status_id = status_id then ⟨.ok false, s, [getReq]⟩
      else if dry_run then ⟨.ok true, s, [getReq]⟩
      else
        let patchReq : Request :=
          ⟨.PATCH, apiUrl snipe_url ("/api/v1/hardware/" ++ Nat.repr entry.id)⟩
        let (data, s1) := serverPatchEntryStatus s entry.id status_id
        if data.status = "error" then
          ⟨.failJson ("Error updating entry: " ++ data.messages), s1,
           [getReq, patchReq]⟩
        else ⟨.ok true, s1, [getReq, patchReq]⟩

/-- Embedding of `run_module` of snipeit_model.py: resolve the category
name to an id via `get_category` (fatal when absent), then `create_model`
with the module's `dry_run` parameter; exit with the changed flag. -/
def model_run_module (s : Server) (snipe_url api_key name category : String)
    (manufacturer_id : Option Int) (dry_run : Bool) : OpResult Bool :=
  let (catRes, catTrace) := get_category s snipe_url api_key category "asset"
  match catRes with
  | .failJson m => ⟨.failJson m, s, catTrace⟩
  | .pyError m => ⟨.pyError m, s, catTrace⟩
  | .ok none => ⟨.failJson ("Category " ++ category ++ " not found!"), s, catTrace⟩
  | .ok (some cat) =>
      let r := create_model s snipe_url api_key name cat.id dry_run manufacturer_id
      ⟨r.result, r.server, catTrace ++ r.trace⟩

/-- Embedding of `run_module` of snipeit_entry.py, with `check_mode`
supplied by the host (supports_check_mode=True): `verify_params` rejects
state=present without a truthy model_name; state=absent runs
`delete_entry`; otherwise resolve the model name (fatal when absent), run
`create_entry`, then `update_entry_model`, then
`update_entry_status_label`, or-ing the three changed flags; exit with the
combined changed flag. -/
def entry_run_module (s : Server) (snipe_url api_key asset_tag : String)
    (status_id : Nat) (model_name : Option String) (state : String)
    (check_mode : Bool) : OpResult Bool :=
  if state = "present" ∧ truthyStr model_name = false then
    ⟨.failJson "model_name is required when state is present", s, []⟩
  else if state = "absent" then
    delete_entry s snipe_url api_key asset_tag check_mode
  else
    let (modelRes, modelTrace) := get_model s snipe_url api_key (model_name.getD "")
    match modelRes with
    | .failJson m => ⟨.failJson m, s, modelTrace⟩
    | .pyError m => ⟨.pyError m, s, modelTrace⟩
    | .ok none =>
        ⟨.failJson ("Model " ++ model_name.getD "" ++ " does not exist"), s,
         modelTrace⟩
    | .ok (some model) =>
        let r1 := create_entry s snipe_url api_key asset_tag status_id model.id
          check_mode
        match r1.result with
        | .failJson m => ⟨.failJson m, r1.server, modelTrace ++ r1.trace⟩
        | .pyError m => ⟨.pyError m, r1.server, modelTrace ++ r1.trace⟩
        | .ok c =>
            let r2 := update_entry_model r1.server snipe_url api_key asset_tag
              model.id check_mode
            match r2.result with
            | .failJson m =>
                ⟨.failJson m, r2.server, modelTrace ++ r1.trace ++ r2.trace⟩
            | .pyError m =>
                ⟨.pyError m, r2.server, modelTrace ++ r1.trace ++ r2.trace⟩
            | .ok u1 =>
                let r3 := update_entry_status_label r2.server snipe_url api_key
                  asset_tag status_id check_mode
                match r3.result with
                | .failJson m =>
                    ⟨.failJson m, r3.server,
                     modelTrace ++ r1.trace ++ r2.trace ++ r3.trace⟩
                | .pyError m =>
                    ⟨.pyError m, r3.server,
                     modelTrace ++ r1.trace ++ r2.trace ++ r3.trace⟩
                | .ok u2 =>
                    ⟨.ok (u2 || (u1 || c)), r3.server,
                     modelTrace ++ r1.trace ++ r2.trace ++ r3.trace⟩

/-- Bool test: is a request a GET? -/
def Request.isGET (r : Request) : Bool :=
  match r.method with
  | .GET => true
  | _ => false

/-- Bool test: is a request a POST? -/
def Request.isPOST (r : Request) : Bool :=
  match r.method with
  | .POST => true
  | _ => false

/-- Fixed API surface named by the specification: the four endpoints
`/api/v1/categories`, `/api/v1/models`, `/api/v1/hardware` and
`/api/v1/hardware/bytag/{tag}`, relative to a base URL. -/
def onFixedSurface (base url : String) : Bool :=
  decide (url = base ++ "/api/v1/categories") ||
  decide (url = base ++ "/api/v1/models") ||
  decide (url = base ++ "/api/v1/hardware") ||
  (base ++ "/api/v1/hardware/bytag/").data.isPrefixOf url.data

/-- API surface the code actually uses: the four endpoints above plus the
record endpoint `/api/v1/hardware/{id}` used by DELETE and PATCH. -/
def onApiSurface (base url : String) : Bool :=
  decide (url = base ++ "/api/v1/categories") ||
  decide (url = base ++ "/api/v1/models") ||
  decide (url = base ++ "/api/v1/hardware") ||
  (base ++ "/api/v1/hardware/bytag/").data.isPrefixOf url.data ||
  (base ++ "/api/v1/hardware/").data.isPrefixOf url.data

/-- String of `k` slash characters, for stating trailing-slash facts. -/
def slashes (k : Nat) : String :=
  String.mk (List.replicate k '/')

theorem strData_append (a b : String) : (a ++ b).data = a.data ++ b.data := by
  cases a
  cases b
  rfl

theorem pref_self_append (l m : List Char) : l.isPrefixOf (l ++ m) = true := by
  simp [List.isPrefixOf_iff_prefix]

theorem rstripSlash_slashes (u : String) (k : Nat) :
    rstripSlash (u ++ slashes k) = rstripSlash u := by
  cases u with
  | mk l =>
    simp only [rstripSlash, slashes, String.instAppend]
    simp [String.append, List.dropWhile_append]

theorem apiUrl_slashes (u path : String) (k : Nat) :
    apiUrl (u ++ slashes k) path = apiUrl u path := by
  simp [apiUrl, rstripSlash_slashes]

theorem create_category_dry (s : Server) (u k n t : String) :
    ∃ res, create_category s u k n t true =
      ⟨res, s, [⟨.GET, apiUrl u "/api/v1/categories"⟩]⟩ := by
  unfold create_category
  cases hp : get_category_parse (serverGetCategories s n t) with
  | ok o => cases o <;> exact ⟨_, rfl⟩
  | failJson m => exact ⟨_, rfl⟩
  | pyError m => exact ⟨_, rfl⟩

theorem create_model_dry (s : Server) (u k n : String) (cid : Nat)
    (mid : Option Int) :
    ∃ res, create_model s u k n cid true mid =
      ⟨res, s, [⟨.GET, apiUrl u "/api/v1/models"⟩]⟩ := by
  unfold create_model
  cases hp : get_model_parse (serverGetModels s n) with
  | ok o => cases o <;> exact ⟨_, rfl⟩
  | failJson m => exact ⟨_, rfl⟩
  | pyError m => exact ⟨_, rfl⟩

theorem create_entry_dry (s : Server) (u k tag : String) (sid mid : Nat) :
    ∃ res, create_entry s u k tag sid mid true =
      ⟨res, s, [⟨.GET, apiUrl u ("/api/v1/hardware/bytag/" ++ tag)⟩]⟩ := by
  unfold create_entry
  cases hp : get_entry_parse (serverGetEntry s tag) with
  | ok o => cases o <;> exact ⟨_, rfl⟩
  | failJson m => exact ⟨_, rfl⟩
  | pyError m => exact ⟨_, rfl⟩

theorem delete_entry_dry (s : Server) (u k tag : String) :
    ∃ res, delete_entry s u k tag true =
      ⟨res, s, [⟨.GET, apiUrl u ("/api/v1/hardware/bytag/" ++ tag)⟩]⟩ := by
  unfold delete_entry
  cases hp : get_entry_parse (serverGetEntry s tag) with
  | ok o => cases o <;> exact ⟨_, rfl⟩
  | failJson m => exact ⟨_, rfl⟩
  | pyError m => exact ⟨_, rfl⟩

theorem update_entry_model_dry (s : Server) (u k tag : String) (mid : Nat) :
    ∃ res, update_entry_model s u k tag mid true =
      ⟨res, s, [⟨.GET, apiUrl u ("/api/v1/hardware/bytag/" ++ tag)⟩]⟩ := by
  unfold update_entry_model
  cases hp : get_entry_parse (serverGetEntry s tag) with
  | ok o =>
      cases o with
      | none => exact ⟨_, rfl⟩
      | some entry =>
          by_cases he : entry.model_id = mid <;> simp [he]
  | failJson m => exact ⟨_, rfl⟩
  | pyError m => exact ⟨_, rfl⟩

theorem update_entry_status_label_dry (s : Server) (u k tag : String)
    (sid : Nat) :
    ∃ res, update_entry_status_label s u k tag sid true =
      ⟨res, s, [⟨.GET, apiUrl u ("/api/v1/hardware/bytag/" ++ tag)⟩]⟩ := by
  unfold update_entry_status_label
  cases hp : get_entry_parse (serverGetEntry s tag) with
  | ok o =>
      cases o with
      | none => exact ⟨_, rfl⟩
      | some entry =>
          by_cases he : entry.status_id = sid <;> simp [he]
  | failJson m => exact ⟨_, rfl⟩
  | pyError m => exact ⟨_, rfl⟩

theorem entry_check_mode_only_get (s : Server) (u k tag : String) (sid : Nat)
    (mn : Option String) (st : String) :
    (entry_run_module s u k tag sid mn st true).trace.all Request.isGET = true ∧
    (entry_run_module s u k tag sid mn st true).server = s := by
  unfold entry_run_module
  split
  · simp
  · split
    · obtain ⟨res, h⟩ := delete_entry_dry s u k tag
      rw [h]
      simp [Request.isGET]
    · simp only [get_model]
      cases hm : get_model_parse (serverGetModels s (mn.getD "")) with
      | failJson m => simp [Request.isGET]
      | pyError m => simp [Request.isGET]
      | ok o =>
          cases o with
          | none => simp [Request.isGET]
          | some model =>
              dsimp only
              obtain ⟨res1, h1⟩ := create_entry_dry s u k tag sid model.id
              rw [h1]
              cases res1 with
              | failJson m => simp [Request.isGET]
              | pyError m => simp [Request.isGET]
              | ok c =>
                  dsimp only
                  obtain ⟨res2, h2⟩ := update_entry_model_dry s u k tag model.id
                  rw [h2]
                  cases res2 with
                  | failJson m => simp [Request.isGET]
                  | pyError m => simp [Request.isGET]
                  | ok u1 =>
                      dsimp only
                      obtain ⟨res3, h3⟩ := update_entry_status_label_dry s u k tag sid
                      rw [h3]
                      cases res3 <;> simp [Request.isGET]

theorem model_run_dry_only_get (s : Server) (u k n c : String)
    (m : Option Int) :
    (model_run_module s u k n c m true).trace.all Request.isGET = true ∧
    (model_run_module s u k n c m true).server = s := by
  unfold model_run_module
  simp only [get_category]
  cases hc : get_category_parse (serverGetCategories s c "asset") with
  | failJson m2 => simp [Request.isGET]
  | pyError m2 => simp [Request.isGET]
  | ok o =>
      cases o with
      | none => simp [Request.isGET]
      | some cat =>
          dsimp only
          obtain ⟨res, h⟩ := create_model_dry s u k n cat.id m
          rw [h]
          simp [Request.isGET]

/-- C4: with the dry-run flag true, no invocation of the entry module, the
model module, or the category create function ever issues a POST, PATCH or
DELETE: every request in the trace is a GET, and the server state is left
untouched.  (The category module itself hard-codes dry_run=False and
declares supports_check_mode=False, so its invocations never have a true
dry-run flag; the property is stated for its `create_category` function.) -/
theorem dry_run_never_mutates :
    (∀ (s : Server) (u k tag : String) (sid : Nat) (mn : Option String)
       (st : String),
      (entry_run_module s u k tag sid mn st true).trace.all Request.isGET = true ∧
      (entry_run_module s u k tag sid mn st true).server = s) ∧
    (∀ (s : Server) (u k n c : String) (m : Option Int),
      (model_run_module s u k n c m true).trace.all Request.isGET = true ∧
      (model_run_module s u k n c m true).server = s) ∧
    (∀ (s : Server) (u k n t : String),
      (create_category s u k n t true).trace.all Request.isGET = true ∧
      (create_category s u k n t true).server = s) := by
  refine ⟨fun s u k tag sid mn st => entry_check_mode_only_get s u k tag sid mn st,
          fun s u k n c m => model_run_dry_only_get s u k n c m,
          fun s u k n t => ?_⟩
  obtain ⟨res, h⟩ := create_category_dry s u k n t
  rw [h]
  simp [Request.isGET]

/-- Server exhibiting the check-mode crash: one asset model named "server"
(id 1) and no hardware entries, so the asset tag "a1" does not exist. -/
def bugServer : Server := ⟨[], [⟨1, "server", 1, none⟩], [], 2, none⟩

/-- C1: refuted by the code as a code bug.  For the entry module with
state=present and an asset_tag absent from the server, the real run
completes with changed=true, but the identical dry run (check mode) does
not complete: create_entry skips the POST, so the following
update_entry_model gets None from get_entry and crashes with a TypeError
when the code subscripts it (`entry["model"]["id"]`). -/
theorem entry_dry_run_crashes_on_absent_tag :
    (entry_run_module bugServer "http://x" "k" "a1" 2 (some "server")
        "present" true).result =
      .pyError "TypeError: NoneType object is not subscriptable" ∧
    (entry_run_module bugServer "http://x" "k" "a1" 2 (some "server")
        "present" false).result = .ok true := by
  exact ⟨by decide, by decide⟩

/-- C10: the POST payload built by create_model contains the key
"manufacturer_id" exactly when the manufacturer_id argument is truthy in
the Python sense; in particular both None and 0 are omitted. -/
theorem manufacturer_id_key_iff_truthy :
    (∀ (name : String) (cid : Nat) (m : Option Int),
      ((model_post_payload name cid m).map Prod.fst).contains
        "manufacturer_id" = truthyInt m) ∧
    ((model_post_payload "m" 1 (some 0)).map Prod.fst).contains
      "manufacturer_id" = false ∧
    ((model_post_payload "m" 1 none).map Prod.fst).contains
      "manufacturer_id" = false := by
  refine ⟨fun name cid m => ?_, by decide, by decide⟩
  cases m with
  | none => simp [model_post_payload, truthyInt]
  | some v =>
      by_cases hv : v = 0 <;> simp [model_post_payload, truthyInt, hv]

/-- C2 as stated is refuted: on a {status, messages} error envelope (which
does not mean simple absence) the category lookup does not abort through
fail_json; reading `data["total"]` raises an uncaught KeyError instead. -/
theorem lookup_error_envelope_not_failjson :
    (get_category_parse (.errEnvelope "error" "Unauthorized.")).isFailJson
      = false ∧
    get_category_parse (.errEnvelope "error" "Unauthorized.") =
      .pyError "KeyError: total" := by
  exact ⟨by decide, by decide⟩

/-- C2 (amended): only get_entry distinguishes absence from genuine errors
by inspecting the {status, messages} payload - the envelope with messages
"Asset does not exist." yields None, any other error envelope aborts via
fail_json carrying the messages text.  get_category and get_model instead
treat total = 0 in the {total, rows} envelope as absence and raise an
uncaught KeyError (aborting, but not through fail_json) on any
{status, messages} error envelope. -/
theorem lookup_error_handling_amended :
    (∀ e, get_entry_parse (.asset e) = .ok (some e)) ∧
    get_entry_parse (.envelope "error" "Asset does not exist.") = .ok none ∧
    (∀ messages, messages ≠ "Asset does not exist." →
      get_entry_parse (.envelope "error" messages) =
        .failJson ("Error retrieving entry: " ++ messages)) ∧
    (∀ (rows : List Category), get_category_parse (.listing 0 rows) = .ok none) ∧
    (∀ st m, get_category_parse (.errEnvelope st m) = .pyError "KeyError: total") ∧
    (∀ (rows : List Model), get_model_parse (.listing 0 rows) = .ok none) ∧
    (∀ st m, get_model_parse (.errEnvelope st m) = .pyError "KeyError: total") := by
  refine ⟨fun e => rfl, by decide, fun messages h => ?_, fun rows => rfl,
          fun st m => rfl, fun rows => rfl, fun st m => rfl⟩
  simp [get_entry_parse, h]

/-- Witness for the amended C2 theorem at a concrete error envelope. -/
theorem lookup_error_handling_amended_witness :
    get_entry_parse (.envelope "error" "Unauthorized.") =
      .failJson "Error retrieving entry: Unauthorized." :=
  lookup_error_handling_amended.2.2.1 "Unauthorized." (by decide)

theorem serverGetCategories_absent (s : Server) (n t : String)
    (habs : s.categories.filter
      (fun c => decide (c.name = n ∧ c.category_type = t)) = []) :
    serverGetCategories s n t = .listing 0 [] := by
  unfold serverGetCategories
  rw [habs]
  rfl

theorem create_category_absent (s : Server) (u k n t : String)
    (hmut : s.mutError = none)
    (habs : s.categories.filter
      (fun c => decide (c.name = n ∧ c.category_type = t)) = []) :
    create_category s u k n t false =
      ⟨.ok true,
       { s with categories := ⟨s.nextId, n, t⟩ :: s.categories,
                nextId := s.nextId + 1 },
       [⟨.GET, apiUrl u "/api/v1/categories"⟩,
        ⟨.POST, apiUrl u "/api/v1/categories"⟩]⟩ := by
  unfold create_category
  rw [serverGetCategories_absent s n t habs]
  simp [get_category_parse, serverPostCategory, hmut]

theorem create_category_found (s : Server) (u k n t : String) (d : Bool)
    (c : Category) (rest : List Category)
    (hfound : s.categories.filter
      (fun c2 => decide (c2.name = n ∧ c2.category_type = t)) = c :: rest) :
    create_category s u k n t d =
      ⟨.ok false, s, [⟨.GET, apiUrl u "/api/v1/categories"⟩]⟩ := by
  unfold create_category
  unfold serverGetCategories
  rw [hfound]
  simp [get_category_parse]

theorem create_category_mut_err (s : Server) (u k n t m : String)
    (hmut : s.mutError = some m)
    (habs : s.categories.filter
      (fun c => decide (c.name = n ∧ c.category_type = t)) = []) :
    create_category s u k n t false =
      ⟨.failJson ("Error creating category: " ++ m), s,
       [⟨.GET, apiUrl u "/api/v1/categories"⟩,
        ⟨.POST, apiUrl u "/api/v1/categories"⟩]⟩ := by
  unfold create_category
  rw [serverGetCategories_absent s n t habs]
  simp [get_category_parse, serverPostCategory, hmut]

theorem serverGetModels_absent (s : Server) (n : String)
    (habs : s.models.filter (fun m => decide (m.name = n)) = []) :
    serverGetModels s n = .listing 0 [] := by
  unfold serverGetModels
  rw [habs]
  rfl

theorem create_model_absent (s : Server) (u k n : String) (cid : Nat)
    (mid : Option Int) (hmut : s.mutError = none)
    (habs : s.models.filter (fun m => decide (m.name = n)) = []) :
    create_model s u k n cid false mid =
      ⟨.ok true,
       { s with
          models := ⟨s.nextId, n, cid, if truthyInt mid then mid else none⟩ :: s.models,
          nextId := s.nextId + 1 },
       [⟨.GET, apiUrl u "/api/v1/models"⟩,
        ⟨.POST, apiUrl u "/api/v1/models"⟩]⟩ := by
  unfold create_model
  rw [serverGetModels_absent s n habs]
  simp [get_model_parse, serverPostModel, hmut]

theorem create_model_found (s : Server) (u k n : String) (cid : Nat)
    (mid : Option Int) (d : Bool) (mo : Model) (rest : List Model)
    (hfound : s.models.filter (fun m => decide (m.name = n)) = mo :: rest) :
    create_model s u k n cid d mid =
      ⟨.ok false, s, [⟨.GET, apiUrl u "/api/v1/models"⟩]⟩ := by
  unfold create_model
  unfold serverGetModels
  rw [hfound]
  simp [get_model_parse]

theorem create_model_mut_err (s : Server) (u k n m : String) (cid : Nat)
    (mid : Option Int) (hmut : s.mutError = some m)
    (habs : s.models.filter (fun m2 => decide (m2.name = n)) = []) :
    create_model s u k n cid false mid =
      ⟨.failJson ("Error creating model: " ++ m), s,
       [⟨.GET, apiUrl u "/api/v1/models"⟩,
        ⟨.POST, apiUrl u "/api/v1/models"⟩]⟩ := by
  unfold create_model
  rw [serverGetModels_absent s n habs]
  simp [get_model_parse, serverPostModel, hmut]

theorem serverGetEntry_absent (s : Server) (tag : String)
    (habs : s.entries.find? (fun e => decide (e.asset_tag = tag)) = none) :
    serverGetEntry s tag = .envelope "error" "Asset does not exist." := by
  unfold serverGetEntry
  rw [habs]

theorem serverGetEntry_found (s : Server) (tag : String) (e : Entry)
    (hf : s.entries.find? (fun e2 => decide (e2.asset_tag = tag)) = some e) :
    serverGetEntry s tag = .asset e := by
  unfold serverGetEntry
  rw [hf]

theorem get_entry_parse_absent :
    get_entry_parse (.envelope "error" "Asset does not exist.") = .ok none := by
  decide

theorem create_entry_absent (s : Server) (u k tag : String) (sid mid : Nat)
    (hmut : s.mutError = none)
    (habs : s.entries.find? (fun e => decide (e.asset_tag = tag)) = none) :
    create_entry s u k tag sid mid false =
      ⟨.ok true,
       { s with
          entries := ⟨s.nextId, tag, sid, mid⟩ :: s.entries,
          nextId := s.nextId + 1 },
       [⟨.GET, apiUrl u ("/api/v1/hardware/bytag/" ++ tag)⟩,
        ⟨.POST, apiUrl u "/api/v1/hardware"⟩]⟩ := by
  unfold create_entry
  rw [serverGetEntry_absent s tag habs, get_entry_parse_absent]
  simp [serverPostEntry, hmut]

theorem create_entry_found (s : Server) (u k tag : String) (sid mid : Nat)
    (d : Bool) (e : Entry)
    (hf : s.entries.find? (fun e2 => decide (e2.asset_tag = tag)) = some e) :
    create_entry s u k tag sid mid d =
      ⟨.ok false, s, [⟨.GET, apiUrl u ("/api/v1/hardware/bytag/" ++ tag)⟩]⟩ := by
  unfold create_entry
  rw [serverGetEntry_found s tag e hf]
  simp [get_entry_parse]

theorem create_entry_mut_err (s : Server) (u k tag m : String) (sid mid : Nat)
    (hmut : s.mutError = some m)
    (habs : s.entries.find? (fun e => decide (e.asset_tag = tag)) = none) :
    create_entry s u k tag sid mid false =
      ⟨.failJson ("Error creating entry: " ++ m), s,
       [⟨.GET, apiUrl u ("/api/v1/hardware/bytag/" ++ tag)⟩,
        ⟨.POST, apiUrl u "/api/v1/hardware"⟩]⟩ := by
  unfold create_entry
  rw [serverGetEntry_absent s tag habs, get_entry_parse_absent]
  simp [serverPostEntry, hmut]

theorem delete_entry_absent (s : Server) (u k tag : String) (d : Bool)
    (habs : s.entries.find? (fun e => decide (e.asset_tag = tag)) = none) :
    delete_entry s u k tag d =
      ⟨.ok false, s, [⟨.GET, apiUrl u ("/api/v1/hardware/bytag/" ++ tag)⟩]⟩ := by
  unfold delete_entry
  rw [serverGetEntry_absent s tag habs, get_entry_parse_absent]

theorem delete_entry_found (s : Server) (u k tag : String) (e : Entry)
    (hmut : s.mutError = none)
    (hf : s.entries.find? (fun e2 => decide (e2.asset_tag = tag)) = some e) :
    delete_entry s u k tag false =
      ⟨.ok true,
       { s with entries := s.entries.filter (fun e2 => decide (¬ e2.id = e.id)) },
       [⟨.GET, apiUrl u ("/api/v1/hardware/bytag/" ++ tag)⟩,
        ⟨.DELETE, apiUrl u ("/api/v1/hardware/" ++ Nat.repr e.id)⟩]⟩ := by
  unfold delete_entry
  rw [serverGetEntry_found s tag e hf]
  simp [get_entry_parse, serverDeleteEntry, hmut]

theorem delete_entry_mut_err (s : Server) (u k tag m : String) (e : Entry)
    (hmut : s.mutError = some m)
    (hf : s.entries.find? (fun e2 => decide (e2.asset_tag = tag)) = some e) :
    delete_entry s u k tag false =
      ⟨.failJson ("Error deleting entry: " ++ m), s,
       [⟨.GET, apiUrl u ("/api/v1/hardware/bytag/" ++ tag)⟩,
        ⟨.DELETE, apiUrl u ("/api/v1/hardware/" ++ Nat.repr e.id)⟩]⟩ := by
  unfold delete_entry
  rw [serverGetEntry_found s tag e hf]
  simp [get_entry_parse, serverDeleteEntry, hmut]

theorem update_entry_model_same (s : Server) (u k tag : String) (mid : Nat)
    (d : Bool) (e : Entry)
    (hf : s.entries.find? (fun e2 => decide (e2.asset_tag = tag)) = some e)
    (heq : e.model_id = mid) :
    update_entry_model s u k tag mid d =
      ⟨.ok false, s, [⟨.GET, apiUrl u ("/api/v1/hardware/bytag/" ++ tag)⟩]⟩ := by
  unfold update_entry_model
  rw [serverGetEntry_found s tag e hf]
  simp [get_entry_parse, heq]

theorem update_entry_model_diff (s : Server) (u k tag : String) (mid : Nat)
    (e : Entry) (hmut : s.mutError = none)
    (hf : s.entries.find? (fun e2 => decide (e2.asset_tag = tag)) = some e)
    (hne : ¬ e.model_id = mid) :
    update_entry_model s u k tag mid false =
      ⟨.ok true,
       { s with entries :=
          s.entries.map fun e2 =>
            if e2.id = e.id then { e2 with model_id := mid } else e2 },
       [⟨.GET, apiUrl u ("/api/v1/hardware/bytag/" ++ tag)⟩,
        ⟨.PATCH, apiUrl u ("/api/v1/hardware/" ++ Nat.repr e.id)⟩]⟩ := by
  unfold update_entry_model
  rw [serverGetEntry_found s tag e hf]
  simp [get_entry_parse, hne, serverPatchEntryModel, hmut]

theorem update_entry_model_mut_err (s : Server) (u k tag m : String) (mid : Nat)
    (e : Entry) (hmut : s.mutError = some m)
    (hf : s.entries.find? (fun e2 => decide (e2.asset_tag = tag)) = some e)
    (hne : ¬ e.model_id = mid) :
    update_entry_model s u k tag mid false =
      ⟨.failJson ("Error updating entry: " ++ m), s,
       [⟨.GET, apiUrl u ("/api/v1/hardware/bytag/" ++ tag)⟩,
        ⟨.PATCH, apiUrl u ("/api/v1/hardware/" ++ Nat.repr e.id)⟩]⟩ := by
  unfold update_entry_model
  rw [serverGetEntry_found s tag e hf]
  simp [get_entry_parse, hne, serverPatchEntryModel, hmut]

theorem update_entry_status_same (s : Server) (u k tag : String) (sid : Nat)
    (d : Bool) (e : Entry)
    (hf : s.entries.find? (fun e2 => decide (e2.asset_tag = tag)) = some e)
    (heq : e.status_id = sid) :
    update_entry_status_label s u k tag sid d =
      ⟨.ok false, s, [⟨.GET, apiUrl u ("/api/v1/hardware/bytag/" ++ tag)⟩]⟩ := by
  unfold update_entry_status_label
  rw [serverGetEntry_found s tag e hf]
  simp [get_entry_parse, heq]

theorem update_entry_status_diff (s : Server) (u k tag : String) (sid : Nat)
    (e : Entry) (hmut : s.mutError = none)
    (hf : s.entries.find? (fun e2 => decide (e2.asset_tag = tag)) = some e)
    (hne : ¬ e.status_id = sid) :
    update_entry_status_label s u k tag sid false =
      ⟨.ok true,
       { s with entries :=
          s.entries.map fun e2 =>
            if e2.id = e.id then { e2 with status_id := sid } else e2 },
       [⟨.GET, apiUrl u ("/api/v1/hardware/bytag/" ++ tag)⟩,
        ⟨.PATCH, apiUrl u ("/api/v1/hardware/" ++ Nat.repr e.id)⟩]⟩ := by
  unfold update_entry_status_label
  rw [serverGetEntry_found s tag e hf]
  simp [get_entry_parse, hne, serverPatchEntryStatus, hmut]

theorem update_entry_status_mut_err (s : Server) (u k tag m : String)
    (sid : Nat) (e : Entry) (hmut : s.mutError = some m)
    (hf : s.entries.find? (fun e2 => decide (e2.asset_tag = tag)) = some e)
    (hne : ¬ e.status_id = sid) :
    update_entry_status_label s u k tag sid false =
      ⟨.failJson ("Error updating entry: " ++ m), s,
       [⟨.GET, apiUrl u ("/api/v1/hardware/bytag/" ++ tag)⟩,
        ⟨.PATCH, apiUrl u ("/api/v1/hardware/" ++ Nat.repr e.id)⟩]⟩ := by
  unfold update_entry_status_label
  rw [serverGetEntry_found s tag e hf]
  simp [get_entry_parse, hne, serverPatchEntryStatus, hmut]

/-- C3: for each create operation (category, model, entry), starting from a
server where the resource is absent and no error responses occur, a first
real run reports changed=true and issues a POST, and a second identical
run against the resulting server reports changed=false and issues no
mutating request (its trace is GET-only). -/
theorem create_twice_changed_then_unchanged :
    (∀ (s : Server) (u k n t : String),
      s.mutError = none →
      s.categories.filter
        (fun c => decide (c.name = n ∧ c.category_type = t)) = [] →
      (create_category s u k n t false).result = .ok true ∧
      (create_category s u k n t false).trace.any Request.isPOST = true ∧
      (create_category (create_category s u k n t false).server u k n t
        false).result = .ok false ∧
      (create_category (create_category s u k n t false).server u k n t
        false).trace.all Request.isGET = true) ∧
    (∀ (s : Server) (u k n : String) (cid : Nat) (mid : Option Int),
      s.mutError = none →
      s.models.filter (fun m => decide (m.name = n)) = [] →
      (create_model s u k n cid false mid).result = .ok true ∧
      (create_model s u k n cid false mid).trace.any Request.isPOST = true ∧
      (create_model (create_model s u k n cid false mid).server u k n cid
        false mid).result = .ok false ∧
      (create_model (create_model s u k n cid false mid).server u k n cid
        false mid).trace.all Request.isGET = true) ∧
    (∀ (s : Server) (u k tag : String) (sid mid : Nat),
      s.mutError = none →
      s.entries.find? (fun e => decide (e.asset_tag = tag)) = none →
      (create_entry s u k tag sid mid false).result = .ok true ∧
      (create_entry s u k tag sid mid false).trace.any Request.isPOST = true ∧
      (create_entry (create_entry s u k tag sid mid false).server u k tag sid
        mid false).result = .ok false ∧
      (create_entry (create_entry s u k tag sid mid false).server u k tag sid
        mid false).trace.all Request.isGET = true) := by
  refine ⟨fun s u k n t hmut habs => ?_, fun s u k n cid mid hmut habs => ?_,
          fun s u k tag sid mid hmut habs => ?_⟩
  · rw [create_category_absent s u k n t hmut habs]
    have hf : (({ s with categories := ⟨s.nextId, n, t⟩ :: s.categories, nextId := s.nextId + 1 } : Server).categories.filter
        (fun c2 => decide (c2.name = n ∧ c2.category_type = t))) =
        ⟨s.nextId, n, t⟩ :: s.categories.filter
          (fun c2 => decide (c2.name = n ∧ c2.category_type = t)) := by
      simp [List.filter_cons]
    rw [habs] at hf
    dsimp only
    rw [create_category_found _ u k n t false _ _ hf]
    simp [Request.isPOST, Request.isGET]
  · rw [create_model_absent s u k n cid mid hmut habs]
    have hf : (({ s with models := ⟨s.nextId, n, cid, if truthyInt mid then mid else none⟩ :: s.models, nextId := s.nextId + 1 } : Server).models.filter
        (fun m2 => decide (m2.name = n))) =
        ⟨s.nextId, n, cid, if truthyInt mid then mid else none⟩ ::
          s.models.filter (fun m2 => decide (m2.name = n)) := by
      simp [List.filter_cons]
    rw [habs] at hf
    dsimp only
    rw [create_model_found _ u k n cid mid false _ _ hf]
    simp [Request.isPOST, Request.isGET]
  · rw [create_entry_absent s u k tag sid mid hmut habs]
    have hf : (({ s with entries := ⟨s.nextId, tag, sid, mid⟩ :: s.entries, nextId := s.nextId + 1 } : Server).entries.find?
        (fun e2 => decide (e2.asset_tag = tag))) =
        some ⟨s.nextId, tag, sid, mid⟩ :=
      List.find?_cons_of_pos _ (by simp)
    dsimp only
    rw [create_entry_found _ u k tag sid mid false _ hf]
    simp [Request.isPOST, Request.isGET]

/-- Witness for C3 at a concrete empty server. -/
theorem create_twice_changed_then_unchanged_witness :
    (create_category ⟨[], [], [], 1, none⟩ "u" "k" "c" "asset" false).result =
      .ok true ∧
    (create_category ⟨[], [], [], 1, none⟩ "u" "k" "c" "asset"
      false).trace.any Request.isPOST = true ∧
    (create_category (create_category ⟨[], [], [], 1, none⟩ "u" "k" "c"
      "asset" false).server "u" "k" "c" "asset" false).result = .ok false ∧
    (create_category (create_category ⟨[], [], [], 1, none⟩ "u" "k" "c"
      "asset" false).server "u" "k" "c" "asset" false).trace.all
      Request.isGET = true :=
  create_twice_changed_then_unchanged.1 ⟨[], [], [], 1, none⟩ "u" "k" "c"
    "asset" rfl (by decide)

/-- Server for the C5 counterexample: a model named "m" exists with
category_id 1, while the desired category_id is 2. -/
def modelServer : Server := ⟨[], [⟨1, "m", 1, none⟩], [], 2, none⟩

/-- C5 as stated is refuted: a model found under the desired name but with
a different category_id is NOT updated - create_model reports
changed=false and issues no PATCH (its trace is the single GET lookup),
while the claim requires a PATCH with changed=true. -/
theorem found_different_model_not_patched :
    (create_model modelServer "u" "k" "m" 2 false none).result = .ok false ∧
    (create_model modelServer "u" "k" "m" 2 false none).trace =
      [⟨.GET, apiUrl "u" "/api/v1/models"⟩] := by
  exact ⟨by decide, by decide⟩

/-- C5 (amended): hardware entries are reconciled as claimed - an entry
found with a differing model_id (or status_id) gets exactly one PATCH with
the desired payload and changed=true, and a matching entry gets no
mutating request and changed=false.  Categories and models, however, are
never updated: once found by natural key the operation reports
changed=false and issues only the GET, even when fields such as the
model's category_id differ from the desired values. -/
theorem reconciliation_amended :
    (∀ (s : Server) (u k tag : String) (mid : Nat) (e : Entry),
      s.mutError = none →
      s.entries.find? (fun e2 => decide (e2.asset_tag = tag)) = some e →
      ¬ e.model_id = mid →
      update_entry_model s u k tag mid false =
        ⟨.ok true,
         { s with entries :=
            s.entries.map fun e2 =>
              if e2.id = e.id then { e2 with model_id := mid } else e2 },
         [⟨.GET, apiUrl u ("/api/v1/hardware/bytag/" ++ tag)⟩,
          ⟨.PATCH, apiUrl u ("/api/v1/hardware/" ++ Nat.repr e.id)⟩]⟩) ∧
    (∀ (s : Server) (u k tag : String) (mid : Nat) (d : Bool) (e : Entry),
      s.entries.find? (fun e2 => decide (e2.asset_tag = tag)) = some e →
      e.model_id = mid →
      update_entry_model s u k tag mid d =
        ⟨.ok false, s, [⟨.GET, apiUrl u ("/api/v1/hardware/bytag/" ++ tag)⟩]⟩) ∧
    (∀ (s : Server) (u k tag : String) (sid : Nat) (e : Entry),
      s.mutError = none →
      s.entries.find? (fun e2 => decide (e2.asset_tag = tag)) = some e →
      ¬ e.status_id = sid →
      update_entry_status_label s u k tag sid false =
        ⟨.ok true,
         { s with entries :=
            s.entries.map fun e2 =>
              if e2.id = e.id then { e2 with status_id := sid } else e2 },
         [⟨.GET, apiUrl u ("/api/v1/hardware/bytag/" ++ tag)⟩,
          ⟨.PATCH, apiUrl u ("/api/v1/hardware/" ++ Nat.repr e.id)⟩]⟩) ∧
    (∀ (s : Server) (u k tag : String) (sid : Nat) (d : Bool) (e : Entry),
      s.entries.find? (fun e2 => decide (e2.asset_tag = tag)) = some e →
      e.status_id = sid →
      update_entry_status_label s u k tag sid d =
        ⟨.ok false, s, [⟨.GET, apiUrl u ("/api/v1/hardware/bytag/" ++ tag)⟩]⟩) ∧
    (∀ (s : Server) (u k n : String) (cid : Nat) (mid : Option Int) (d : Bool)
       (mo : Model) (rest : List Model),
      s.models.filter (fun m => decide (m.name = n)) = mo :: rest →
      create_model s u k n cid d mid =
        ⟨.ok false, s, [⟨.GET, apiUrl u "/api/v1/models"⟩]⟩) ∧
    (∀ (s : Server) (u k n t : String) (d : Bool) (c : Category)
       (rest : List Category),
      s.categories.filter
        (fun c2 => decide (c2.name = n ∧ c2.category_type = t)) = c :: rest →
      create_category s u k n t d =
        ⟨.ok false, s, [⟨.GET, apiUrl u "/api/v1/categories"⟩]⟩) := by
  refine ⟨fun s u k tag mid e hmut hf hne =>
            update_entry_model_diff s u k tag mid e hmut hf hne,
          fun s u k tag mid d e hf heq =>
            update_entry_model_same s u k tag mid d e hf heq,
          fun s u k tag sid e hmut hf hne =>
            update_entry_status_diff s u k tag sid e hmut hf hne,
          fun s u k tag sid d e hf heq =>
            update_entry_status_same s u k tag sid d e hf heq,
          fun s u k n cid mid d mo rest hfound =>
            create_model_found s u k n cid mid d mo rest hfound,
          fun s u k n t d c rest hfound =>
            create_category_found s u k n t d c rest hfound⟩

/-- Witness for the amended C5 theorem: a concrete entry with model id 1 is
patched to the desired model id 3. -/
theorem reconciliation_amended_witness :
    update_entry_model ⟨[], [], [⟨5, "a1", 2, 1⟩], 6, none⟩ "u" "k" "a1" 3
        false =
      ⟨.ok true, ⟨[], [], [⟨5, "a1", 2, 3⟩], 6, none⟩,
       [⟨.GET, apiUrl "u" ("/api/v1/hardware/bytag/" ++ "a1")⟩,
        ⟨.PATCH, apiUrl "u" ("/api/v1/hardware/" ++ Nat.repr 5)⟩]⟩ :=
  reconciliation_amended.1 ⟨[], [], [⟨5, "a1", 2, 1⟩], 6, none⟩ "u" "k" "a1" 3
    ⟨5, "a1", 2, 1⟩ rfl (by decide) (by decide)

/-- C6: whenever the service answers a mutating request (POST, PATCH or
DELETE) with a {status: "error", messages: m} envelope, the operation
aborts through fail_json with a message carrying m verbatim, the server
records are unchanged, and the trace ends at the failing request - no
further request is issued.  Stated for all six mutating operations, each
under the conditions that make it reach its mutating request. -/
theorem mutation_error_fatal :
    (∀ (s : Server) (u k n t m : String),
      s.mutError = some m →
      s.categories.filter
        (fun c => decide (c.name = n ∧ c.category_type = t)) = [] →
      create_category s u k n t false =
        ⟨.failJson ("Error creating category: " ++ m), s,
         [⟨.GET, apiUrl u "/api/v1/categories"⟩,
          ⟨.POST, apiUrl u "/api/v1/categories"⟩]⟩) ∧
    (∀ (s : Server) (u k n m : String) (cid : Nat) (mid : Option Int),
      s.mutError = some m →
      s.models.filter (fun m2 => decide (m2.name = n)) = [] →
      create_model s u k n cid false mid =
        ⟨.failJson ("Error creating model: " ++ m), s,
         [⟨.GET, apiUrl u "/api/v1/models"⟩,
          ⟨.POST, apiUrl u "/api/v1/models"⟩]⟩) ∧
    (∀ (s : Server) (u k tag m : String) (sid mid : Nat),
      s.mutError = some m →
      s.entries.find? (fun e => decide (e.asset_tag = tag)) = none →
      create_entry s u k tag sid mid false =
        ⟨.failJson ("Error creating entry: " ++ m), s,
         [⟨.GET, apiUrl u ("/api/v1/hardware/bytag/" ++ tag)⟩,
          ⟨.POST, apiUrl u "/api/v1/hardware"⟩]⟩) ∧
    (∀ (s : Server) (u k tag m : String) (e : Entry),
      s.mutError = some m →
      s.entries.find? (fun e2 => decide (e2.asset_tag = tag)) = some e →
      delete_entry s u k tag false =
        ⟨.failJson ("Error deleting entry: " ++ m), s,
         [⟨.GET, apiUrl u ("/api/v1/hardware/bytag/" ++ tag)⟩,
          ⟨.DELETE, apiUrl u ("/api/v1/hardware/" ++ Nat.repr e.id)⟩]⟩) ∧
    (∀ (s : Server) (u k tag m : String) (mid : Nat) (e : Entry),
      s.mutError = some m →
      s.entries.find? (fun e2 => decide (e2.asset_tag = tag)) = some e →
      ¬ e.model_id = mid →
      update_entry_model s u k tag mid false =
        ⟨.failJson ("Error updating entry: " ++ m), s,
         [⟨.GET, apiUrl u ("/api/v1/hardware/bytag/" ++ tag)⟩,
          ⟨.PATCH, apiUrl u ("/api/v1/hardware/" ++ Nat.repr e.id)⟩]⟩) ∧
    (∀ (s : Server) (u k tag m : String) (sid : Nat) (e : Entry),
      s.mutError = some m →
      s.entries.find? (fun e2 => decide (e2.asset_tag = tag)) = some e →
      ¬ e.status_id = sid →
      update_entry_status_label s u k tag sid false =
        ⟨.failJson ("Error updating entry: " ++ m), s,
         [⟨.GET, apiUrl u ("/api/v1/hardware/bytag/" ++ tag)⟩,
          ⟨.PATCH, apiUrl u ("/api/v1/hardware/" ++ Nat.repr e.id)⟩]⟩) := by
  refine ⟨fun s u k n t m hmut habs =>
            create_category_mut_err s u k n t m hmut habs,
          fun s u k n m cid mid hmut habs =>
            create_model_mut_err s u k n m cid mid hmut habs,
          fun s u k tag m sid mid hmut habs =>
            create_entry_mut_err s u k tag m sid mid hmut habs,
          fun s u k tag m e hmut hf =>
            delete_entry_mut_err s u k tag m e hmut hf,
          fun s u k tag m mid e hmut hf hne =>
            update_entry_model_mut_err s u k tag m mid e hmut hf hne,
          fun s u k tag m sid e hmut hf hne =>
            update_entry_status_mut_err s u k tag m sid e hmut hf hne⟩

/-- Witness for C6: a concrete category POST answered with messages
"boom" aborts with the verbatim text and no request after the POST. -/
theorem mutation_error_fatal_witness :
    create_category ⟨[], [], [], 1, some "boom"⟩ "u" "k" "c" "asset" false =
      ⟨.failJson ("Error creating category: " ++ "boom"),
       ⟨[], [], [], 1, some "boom"⟩,
       [⟨.GET, apiUrl "u" "/api/v1/categories"⟩,
        ⟨.POST, apiUrl "u" "/api/v1/categories"⟩]⟩ :=
  mutation_error_fatal.1 ⟨[], [], [], 1, some "boom"⟩ "u" "k" "c" "asset"
    "boom" rfl (by decide)

/-- C7: for the entry module invoked with state=absent in a real
(non-dry-run) error-free run: when no entry carries the asset_tag, the
trace is the single GET lookup and changed=false; when an entry is found,
the trace is exactly the GET lookup followed by one DELETE for that
entry's id, the entry is removed, and changed=true. -/
theorem entry_state_absent_delete :
    ∀ (s : Server) (u k tag : String) (sid : Nat) (mn : Option String),
      s.mutError = none →
      ((s.entries.find? (fun e => decide (e.asset_tag = tag)) = none →
        entry_run_module s u k tag sid mn "absent" false =
          ⟨.ok false, s,
           [⟨.GET, apiUrl u ("/api/v1/hardware/bytag/" ++ tag)⟩]⟩) ∧
       (∀ e, s.entries.find? (fun e2 => decide (e2.asset_tag = tag)) = some e →
        entry_run_module s u k tag sid mn "absent" false =
          ⟨.ok true,
           { s with entries :=
              s.entries.filter (fun e2 => decide (¬ e2.id = e.id)) },
           [⟨.GET, apiUrl u ("/api/v1/hardware/bytag/" ++ tag)⟩,
            ⟨.DELETE, apiUrl u ("/api/v1/hardware/" ++ Nat.repr e.id)⟩]⟩)) := by
  intro s u k tag sid mn hmut
  constructor
  · intro habs
    unfold entry_run_module
    rw [if_neg (by simp), if_pos rfl]
    exact delete_entry_absent s u k tag false habs
  · intro e hf
    unfold entry_run_module
    rw [if_neg (by simp), if_pos rfl]
    exact delete_entry_found s u k tag e hmut hf

/-- Witness for C7: deleting a concrete existing entry (id 5) and a
missing one. -/
theorem entry_state_absent_delete_witness :
    entry_run_module ⟨[], [], [⟨5, "a1", 2, 1⟩], 6, none⟩ "u" "k" "a1" 2 none
        "absent" false =
      ⟨.ok true, ⟨[], [], [], 6, none⟩,
       [⟨.GET, apiUrl "u" ("/api/v1/hardware/bytag/" ++ "a1")⟩,
        ⟨.DELETE, apiUrl "u" ("/api/v1/hardware/" ++ Nat.repr 5)⟩]⟩ :=
  (entry_state_absent_delete ⟨[], [], [⟨5, "a1", 2, 1⟩], 6, none⟩ "u" "k" "a1"
    2 none rfl).2 ⟨5, "a1", 2, 1⟩ (by decide)

theorem isPrefixOf_append_str (a b c : String) :
    (a ++ b).data.isPrefixOf (a ++ (b ++ c)).data = true := by
  simp only [strData_append]
  rw [← List.append_assoc]
  exact pref_self_append _ _

theorem get_category_surface (s : Server) (u k n t : String) :
    (get_category s u k n t).2.all
      (fun r => onApiSurface (rstripSlash u) r.url) = true := by
  simp [get_category, onApiSurface, apiUrl]

theorem get_model_surface (s : Server) (u k n : String) :
    (get_model s u k n).2.all
      (fun r => onApiSurface (rstripSlash u) r.url) = true := by
  simp [get_model, onApiSurface, apiUrl]

theorem get_entry_surface (s : Server) (u k tag : String) :
    (get_entry s u k tag).2.all
      (fun r => onApiSurface (rstripSlash u) r.url) = true := by
  simp [get_entry, onApiSurface, apiUrl, isPrefixOf_append_str]

theorem create_category_surface (s : Server) (u k n t : String) (d : Bool) :
    (create_category s u k n t d).trace.all
      (fun r => onApiSurface (rstripSlash u) r.url) = true := by
  unfold create_category
  repeat' split
  all_goals simp [onApiSurface, apiUrl, isPrefixOf_append_str]

theorem create_model_surface (s : Server) (u k n : String) (cid : Nat)
    (d : Bool) (mid : Option Int) :
    (create_model s u k n cid d mid).trace.all
      (fun r => onApiSurface (rstripSlash u) r.url) = true := by
  unfold create_model
  repeat' split
  all_goals simp [onApiSurface, apiUrl, isPrefixOf_append_str]

theorem create_entry_surface (s : Server) (u k tag : String) (sid mid : Nat)
    (d : Bool) :
    (create_entry s u k tag sid mid d).trace.all
      (fun r => onApiSurface (rstripSlash u) r.url) = true := by
  unfold create_entry
  repeat' split
  all_goals simp [onApiSurface, apiUrl, isPrefixOf_append_str]

theorem delete_entry_surface (s : Server) (u k tag : String) (d : Bool) :
    (delete_entry s u k tag d).trace.all
      (fun r => onApiSurface (rstripSlash u) r.url) = true := by
  unfold delete_entry
  repeat' split
  all_goals simp [onApiSurface, apiUrl, isPrefixOf_append_str]

theorem update_entry_model_surface (s : Server) (u k tag : String)
    (mid : Nat) (d : Bool) :
    (update_entry_model s u k tag mid d).trace.all
      (fun r => onApiSurface (rstripSlash u) r.url) = true := by
  unfold update_entry_model
  repeat' split
  all_goals simp [onApiSurface, apiUrl, isPrefixOf_append_str]

theorem update_entry_status_surface (s : Server) (u k tag : String)
    (sid : Nat) (d : Bool) :
    (update_entry_status_label s u k tag sid d).trace.all
      (fun r => onApiSurface (rstripSlash u) r.url) = true := by
  unfold update_entry_status_label
  repeat' split
  all_goals simp [onApiSurface, apiUrl, isPrefixOf_append_str]

/-- Server for the C8 counterexample: one entry with asset_tag "a1" and
id 5 to be deleted. -/
def entryServer : Server := ⟨[], [], [⟨5, "a1", 2, 1⟩], 6, none⟩

/-- C8 as stated is refuted: deleting the entry with asset_tag "a1" issues
a DELETE to `/api/v1/hardware/5`, an URL on none of the four endpoints the
claim lists (`/api/v1/categories`, `/api/v1/models`, `/api/v1/hardware`,
`/api/v1/hardware/bytag/{tag}`). -/
theorem request_outside_listed_surface :
    ((delete_entry entryServer "http://x" "k" "a1" false).trace.all
      (fun r => onFixedSurface "http://x" r.url)) = false ∧
    ((delete_entry entryServer "http://x" "k" "a1" false).trace.any
      (fun r => decide (r.url = "http://x/api/v1/hardware/5"))) = true := by
  exact ⟨by decide, by decide⟩

/-- C8 (amended): every HTTP request issued by any of the nine operations
targets the four listed endpoints or the record endpoint
`/api/v1/hardware/{id}` that DELETE and PATCH use - no request leaves
this five-endpoint surface (relative to the stripped base URL). -/
theorem requests_on_api_surface :
    (∀ (s : Server) (u k n t : String),
      (get_category s u k n t).2.all
        (fun r => onApiSurface (rstripSlash u) r.url) = true) ∧
    (∀ (s : Server) (u k n : String),
      (get_model s u k n).2.all
        (fun r => onApiSurface (rstripSlash u) r.url) = true) ∧
    (∀ (s : Server) (u k tag : String),
      (get_entry s u k tag).2.all
        (fun r => onApiSurface (rstripSlash u) r.url) = true) ∧
    (∀ (s : Server) (u k n t : String) (d : Bool),
      (create_category s u k n t d).trace.all
        (fun r => onApiSurface (rstripSlash u) r.url) = true) ∧
    (∀ (s : Server) (u k n : String) (cid : Nat) (d : Bool) (mid : Option Int),
      (create_model s u k n cid d mid).trace.all
        (fun r => onApiSurface (rstripSlash u) r.url) = true) ∧
    (∀ (s : Server) (u k tag : String) (sid mid : Nat) (d : Bool),
      (create_entry s u k tag sid mid d).trace.all
        (fun r => onApiSurface (rstripSlash u) r.url) = true) ∧
    (∀ (s : Server) (u k tag : String) (d : Bool),
      (delete_entry s u k tag d).trace.all
        (fun r => onApiSurface (rstripSlash u) r.url) = true) ∧
    (∀ (s : Server) (u k tag : String) (mid : Nat) (d : Bool),
      (update_entry_model s u k tag mid d).trace.all
        (fun r => onApiSurface (rstripSlash u) r.url) = true) ∧
    (∀ (s : Server) (u k tag : String) (sid : Nat) (d : Bool),
      (update_entry_status_label s u k tag sid d).trace.all
        (fun r => onApiSurface (rstripSlash u) r.url) = true) :=
  ⟨get_category_surface, get_model_surface, get_entry_surface,
   create_category_surface, create_model_surface, create_entry_surface,
   delete_entry_surface, update_entry_model_surface,
   update_entry_status_surface⟩

theorem get_category_slashes (s : Server) (u k n t : String) (j : Nat) :
    get_category s (u ++ slashes j) k n t = get_category s u k n t := by
  simp only [get_category, apiUrl_slashes]

theorem get_model_slashes (s : Server) (u k n : String) (j : Nat) :
    get_model s (u ++ slashes j) k n = get_model s u k n := by
  simp only [get_model, apiUrl_slashes]

theorem get_entry_slashes (s : Server) (u k tag : String) (j : Nat) :
    get_entry s (u ++ slashes j) k tag = get_entry s u k tag := by
  simp only [get_entry, apiUrl_slashes]

theorem create_category_slashes (s : Server) (u k n t : String) (d : Bool)
    (j : Nat) :
    create_category s (u ++ slashes j) k n t d =
      create_category s u k n t d := by
  simp only [create_category, apiUrl_slashes]

theorem create_model_slashes (s : Server) (u k n : String) (cid : Nat)
    (d : Bool) (mid : Option Int) (j : Nat) :
    create_model s (u ++ slashes j) k n cid d mid =
      create_model s u k n cid d mid := by
  simp only [create_model, apiUrl_slashes]

theorem create_entry_slashes (s : Server) (u k tag : String) (sid mid : Nat)
    (d : Bool) (j : Nat) :
    create_entry s (u ++ slashes j) k tag sid mid d =
      create_entry s u k tag sid mid d := by
  simp only [create_entry, apiUrl_slashes]

theorem delete_entry_slashes (s : Server) (u k tag : String) (d : Bool)
    (j : Nat) :
    delete_entry s (u ++ slashes j) k tag d = delete_entry s u k tag d := by
  simp only [delete_entry, apiUrl_slashes]

theorem update_entry_model_slashes (s : Server) (u k tag : String)
    (mid : Nat) (d : Bool) (j : Nat) :
    update_entry_model s (u ++ slashes j) k tag mid d =
      update_entry_model s u k tag mid d := by
  simp only [update_entry_model, apiUrl_slashes]

theorem update_entry_status_slashes (s : Server) (u k tag : String)
    (sid : Nat) (d : Bool) (j : Nat) :
    update_entry_status_label s (u ++ slashes j) k tag sid d =
      update_entry_status_label s u k tag sid d := by
  simp only [update_entry_status_label, apiUrl_slashes]

theorem model_run_slashes (s : Server) (u k n c : String) (m : Option Int)
    (d : Bool) (j : Nat) :
    model_run_module s (u ++ slashes j) k n c m d =
      model_run_module s u k n c m d := by
  simp only [model_run_module, get_category_slashes, create_model_slashes]

theorem entry_run_slashes (s : Server) (u k tag : String) (sid : Nat)
    (mn : Option String) (st : String) (cm : Bool) (j : Nat) :
    entry_run_module s (u ++ slashes j) k tag sid mn st cm =
      entry_run_module s u k tag sid mn st cm := by
  simp only [entry_run_module, get_model_slashes, delete_entry_slashes,
    create_entry_slashes, update_entry_model_slashes,
    update_entry_status_slashes]

/-- C9: every request URL is built as `snipe_url.rstrip('/') + path`, so
stripping is invariant under appended trailing slashes and every operation
(and both run_module flows) behaves identically - same outcome, same
server, same request URLs - for two snipe_url values that differ only in
trailing slashes. -/
theorem trailing_slashes_irrelevant :
    (∀ (u : String) (j : Nat), rstripSlash (u ++ slashes j) = rstripSlash u) ∧
    (∀ (u path : String) (j : Nat),
      apiUrl (u ++ slashes j) path = apiUrl u path) ∧
    (∀ (s : Server) (u k n t : String) (j : Nat),
      get_category s (u ++ slashes j) k n t = get_category s u k n t) ∧
    (∀ (s : Server) (u k n : String) (j : Nat),
      get_model s (u ++ slashes j) k n = get_model s u k n) ∧
    (∀ (s : Server) (u k tag : String) (j : Nat),
      get_entry s (u ++ slashes j) k tag = get_entry s u k tag) ∧
    (∀ (s : Server) (u k n t : String) (d : Bool) (j : Nat),
      create_category s (u ++ slashes j) k n t d =
        create_category s u k n t d) ∧
    (∀ (s : Server) (u k n : String) (cid : Nat) (d : Bool) (mid : Option Int)
       (j : Nat),
      create_model s (u ++ slashes j) k n cid d mid =
        create_model s u k n cid d mid) ∧
    (∀ (s : Server) (u k tag : String) (sid mid : Nat) (d : Bool) (j : Nat),
      create_entry s (u ++ slashes j) k tag sid mid d =
        create_entry s u k tag sid mid d) ∧
    (∀ (s : Server) (u k tag : String) (d : Bool) (j : Nat),
      delete_entry s (u ++ slashes j) k tag d = delete_entry s u k tag d) ∧
    (∀ (s : Server) (u k tag : String) (mid : Nat) (d : Bool) (j : Nat),
      update_entry_model s (u ++ slashes j) k tag mid d =
        update_entry_model s u k tag mid d) ∧
    (∀ (s : Server) (u k tag : String) (sid : Nat) (d : Bool) (j : Nat),
      update_entry_status_label s (u ++ slashes j) k tag sid d =
        update_entry_status_label s u k tag sid d) ∧
    (∀ (s : Server) (u k n c : String) (m : Option Int) (d : Bool) (j : Nat),
      model_run_module s (u ++ slashes j) k n c m d =
        model_run_module s u k n c m d) ∧
    (∀ (s : Server) (u k tag : String) (sid : Nat) (mn : Option String)
       (st : String) (cm : Bool) (j : Nat),
      entry_run_module s (u ++ slashes j) k tag sid mn st cm =
        entry_run_module s u k tag sid mn st cm) :=
  ⟨rstripSlash_slashes, apiUrl_slashes, get_category_slashes,
   get_model_slashes, get_entry_slashes, create_category_slashes,
   create_model_slashes, create_entry_slashes, delete_entry_slashes,
   update_entry_model_slashes, update_entry_status_slashes,
   model_run_slashes, entry_run_slashes⟩
